import Mathlib

/-!
Shallow embedding of the SURGE backend (src/backend/main.py,
src/backend/congestion.py, src/backend/config.py) for verification of its
specification.

Modelling conventions:
* Redis is modelled by an explicit `Store` holding the two families of keys
  the core uses: `surge:{id}` token keys (written by `issue_surge_id` with
  `ex=3600`, so each carries an absolute expiry time) and `surge:{id}:scans`
  list keys (written by `rpush`, which sets no TTL, so they carry none).
* Wall-clock timestamps (ISO strings in the code, compared after parsing)
  are modelled as rationals counting seconds.
* A stored raw scan entry is either a well-formed record `ok zone ts`
  (the shape `json.dumps({"zone": ..., "timestamp": ...})` produced by the
  recorder) or an unparseable blob `bad s` (the `json.JSONDecodeError` case).
* Python dicts keyed by zone are modelled as total functions with the
  `.get(zone, default)` defaults baked in, which is exactly how the code
  reads them; the congestion response dict is a function
  `String → Option ZoneData`, `none` for zones absent from `all_zones`.
-/

/-- Raw entry of a `surge:{id}:scans` Redis list: either a well-formed
JSON scan event or an unparseable blob. -/
inductive RawScan where
  | ok (zone : String) (ts : Rat)
  | bad (s : String)
deriving DecidableEq, Repr

/-- State of the shared Redis store as used by the core: token keys with
their absolute expiry time, and scan-list keys (which the code never gives
a TTL). -/
structure Store where
  tokens : List (String × Rat)
  scanLists : List (String × List RawScan)
deriving DecidableEq, Repr

/-- Association-list lookup, modelling a Redis key read. -/
def alookup {α : Type} : List (String × α) → String → Option α
  | [], _ => none
  | (k', v) :: r, k => if k' = k then some v else alookup r k

/-- Association-list update, modelling a Redis key write (replace or create). -/
def aset {α : Type} : List (String × α) → String → α → List (String × α)
  | [], k, v => [(k, v)]
  | (k', v') :: r, k, v => if k' = k then (k, v) :: r else (k', v') :: aset r k v

/-- VALID_ZONES from main.py: the configured zone set. -/
def VALID_ZONES : List String :=
  ["terminal_entry", "security", "customs", "boarding_gate", "transfer", "amenities"]

/-- Presence of the `surge:{id}` key at time `now`: `r.exists` under Redis
TTL semantics (the key set with `ex=3600` is gone strictly after its expiry
time). -/
def tokenActive (s : Store) (id : String) (now : Rat) : Bool :=
  match alookup s.tokens id with
  | some e => decide (now ≤ e)
  | none => false

/-- issue_surge_id from main.py, restricted to its store effect:
`r.set(f"surge:{id}", "active", ex=3600)` registers the token key with a
3600-second TTL. The minted UUID is the `id` argument; QR generation is
external. -/
def issue_surge_id (s : Store) (id : String) (now : Rat) : Store :=
  { s with tokens := aset s.tokens id (now + 3600) }

/-- Outcome of a scan, mirroring the four responses of `scanqrcode`:
HTTP 404 → `invalidToken`, HTTP 400 → `invalidZone`, the
`"already_scanned"` body (carrying the stored timestamp) → `alreadyInZone`,
the `"scan recorded"` body → `recorded`. -/
inductive ScanOutcome where
  | invalidToken
  | invalidZone
  | alreadyInZone (prevTs : Rat)
  | recorded (ts : Rat)
deriving DecidableEq, Repr

/-- scanqrcode from main.py. Checks the token key, then the zone; reads the
scans list and, if its last element parses to an event in the same zone,
returns `alreadyInZone` without writing. Otherwise it executes
`r.delete(scans_key)` followed by `r.rpush(scans_key, new_event)`, leaving
the list holding exactly the one new event (`aset … [.ok zone now]`). An
unparseable tail (`json.JSONDecodeError`) is swallowed by `except: pass`
and falls through to the delete-and-push path. -/
def scanqrcode (s : Store) (surge_id zone : String) (now : Rat) :
    ScanOutcome × Store :=
  if tokenActive s surge_id now = false then (.invalidToken, s)
  else if zone ∉ VALID_ZONES then (.invalidZone, s)
  else
    let raw_scans := (alookup s.scanLists surge_id).getD []
    match raw_scans.getLast? with
    | some (.ok z ts) =>
      if z = zone then (.alreadyInZone ts, s)
      else (.recorded now,
            { s with scanLists := aset s.scanLists surge_id [.ok zone now] })
    | _ => (.recorded now,
            { s with scanLists := aset s.scanLists surge_id [.ok zone now] })

/-- CongestionLevel from congestion.py. -/
inductive CongestionLevel where
  | LOW
  | MEDIUM
  | HIGH
deriving DecidableEq, Repr

/-- CONGESTION_THRESHOLDS["low_max"] from congestion.py. -/
def low_max : Rat := 100

/-- CONGESTION_THRESHOLDS["medium_max"] from congestion.py. -/
def medium_max : Rat := 300

/-- SCAN_RATE_WINDOW_MINUTES from congestion.py. -/
def SCAN_RATE_WINDOW_MINUTES : Rat := 5

/-- calculate_congestion_score from congestion.py:
`scan_rate * avg_dwell_time` (int × float in the code; ℕ × ℚ here). -/
def calculate_congestion_score (scan_rate : Nat) (avg_dwell_time : Rat) : Rat :=
  (scan_rate : Rat) * avg_dwell_time

/-- classify_congestion from congestion.py: score below `low_max` is LOW,
otherwise below `medium_max` is MEDIUM, otherwise HIGH. -/
def classify_congestion (score : Rat) : CongestionLevel :=
  if score < low_max then .LOW
  else if score < medium_max then .MEDIUM
  else .HIGH

/-- Numeric rank of a congestion level, used to state that classification
never decreases. -/
def levelRank : CongestionLevel → Nat
  | .LOW => 0
  | .MEDIUM => 1
  | .HIGH => 2

/-- classify_congestion is monotone in the score. -/
theorem classify_congestion_mono {a b : Rat} (h : a ≤ b) :
    levelRank (classify_congestion a) ≤ levelRank (classify_congestion b) := by
  unfold classify_congestion
  split_ifs <;> simp [levelRank] <;> linarith

/-- C5: classify_congestion is a total function on scores returning LOW iff
score < 100, MEDIUM iff 100 ≤ score < 300 and HIGH iff score ≥ 300, with the
default thresholds low_max = 100 and medium_max = 300; in particular
classify_congestion 120 = MEDIUM, classify_congestion 100 = MEDIUM and
classify_congestion 300 = HIGH. -/
theorem classify_congestion_spec (s : Rat) :
    (classify_congestion s = .LOW ↔ s < 100) ∧
    (classify_congestion s = .MEDIUM ↔ 100 ≤ s ∧ s < 300) ∧
    (classify_congestion s = .HIGH ↔ 300 ≤ s) ∧
    low_max = 100 ∧ medium_max = 300 ∧
    classify_congestion 120 = .MEDIUM ∧
    classify_congestion 100 = .MEDIUM ∧
    classify_congestion 300 = .HIGH := by
  refine ⟨?_, ?_, ?_, rfl, rfl, by decide, by decide, by decide⟩ <;>
    · unfold classify_congestion low_max medium_max
      split_ifs <;> simp_all <;> linarith

/-- C6: the congestion score is the product scan count × average dwell; it
is non-negative for non-negative dwell, zero when either factor is zero,
monotone in each factor holding the other fixed, and the classification
level never decreases when the scan count increases with the dwell fixed. -/
theorem calculate_congestion_score_spec (c c' : Nat) (d d' : Rat) :
    calculate_congestion_score c d = (c : Rat) * d ∧
    (0 ≤ d → 0 ≤ calculate_congestion_score c d) ∧
    calculate_congestion_score 0 d = 0 ∧
    calculate_congestion_score c 0 = 0 ∧
    (c ≤ c' → 0 ≤ d →
      calculate_congestion_score c d ≤ calculate_congestion_score c' d) ∧
    (d ≤ d' →
      calculate_congestion_score c d ≤ calculate_congestion_score c d') ∧
    (c ≤ c' → 0 ≤ d →
      levelRank (classify_congestion (calculate_congestion_score c d)) ≤
        levelRank (classify_congestion (calculate_congestion_score c' d))) := by
  have hcast : (c : Rat) ≤ (c' : Rat) → c ≤ c' := by exact_mod_cast fun h => h
  refine ⟨rfl, ?_, by simp [calculate_congestion_score],
    by simp [calculate_congestion_score], ?_, ?_, ?_⟩
  · intro hd
    exact mul_nonneg (by positivity) hd
  · intro hc hd
    exact mul_le_mul_of_nonneg_right (by exact_mod_cast hc) hd
  · intro hd
    exact mul_le_mul_of_nonneg_left hd (by positivity)
  · intro hc hd
    exact classify_congestion_mono
      (mul_le_mul_of_nonneg_right (by exact_mod_cast hc) hd)

/-- Witness for C6 at scan counts 1 ≤ 2 and dwells 3 ≤ 4. -/
theorem calculate_congestion_score_spec_witness :
    0 ≤ calculate_congestion_score 1 3 ∧
    calculate_congestion_score 1 3 ≤ calculate_congestion_score 2 3 ∧
    calculate_congestion_score 1 3 ≤ calculate_congestion_score 1 4 ∧
    levelRank (classify_congestion (calculate_congestion_score 1 3)) ≤
      levelRank (classify_congestion (calculate_congestion_score 2 3)) := by
  have h := calculate_congestion_score_spec 1 2 3 4
  exact ⟨h.2.1 (by norm_num), h.2.2.2.2.1 (by norm_num) (by norm_num),
    h.2.2.2.2.2.1 (by norm_num),
    h.2.2.2.2.2.2 (by norm_num) (by norm_num)⟩

/-- C7: scanqrcode checks the token before the zone and its error paths are
pure: an inactive token yields `invalidToken` with the store untouched
(whatever the zone, valid or not), and an active token with a zone outside
VALID_ZONES yields `invalidZone` with the store untouched. -/
theorem scanqrcode_error_paths (s : Store) (id zone : String) (now : Rat) :
    (tokenActive s id now = false →
      scanqrcode s id zone now = (.invalidToken, s)) ∧
    (tokenActive s id now = true → zone ∉ VALID_ZONES →
      scanqrcode s id zone now = (.invalidZone, s)) := by
  constructor
  · intro h
    simp [scanqrcode, h]
  · intro h hz
    simp [scanqrcode, h, hz]

/-- Witness for C7: an empty store rejects the token even though the zone
"..." is also invalid, and a store holding an active token rejects an
invalid zone, both without mutation. -/
theorem scanqrcode_error_paths_witness :
    scanqrcode ⟨[], []⟩ "t" "not_a_zone" 0 = (.invalidToken, ⟨[], []⟩) ∧
    scanqrcode ⟨[("t", 100)], []⟩ "t" "not_a_zone" 0 =
      (.invalidZone, ⟨[("t", 100)], []⟩) := by
  exact ⟨(scanqrcode_error_paths ⟨[], []⟩ "t" "not_a_zone" 0).1 (by decide),
    (scanqrcode_error_paths ⟨[("t", 100)], []⟩ "t" "not_a_zone" 0).2
      (by decide) (by decide)⟩

/-- C10: when an active token's stored history is non-empty but its last
entry does not parse as JSON, scanqrcode skips the same-zone check
(`except json.JSONDecodeError: pass`), deletes the stored list, pushes one
fresh event and returns `recorded`, for every valid zone. -/
theorem scanqrcode_bad_tail (s : Store) (id zone : String) (now : Rat)
    (str : String)
    (hact : tokenActive s id now = true)
    (hz : zone ∈ VALID_ZONES)
    (htail : ((alookup s.scanLists id).getD []).getLast? = some (.bad str)) :
    scanqrcode s id zone now =
      (.recorded now, { s with scanLists := aset s.scanLists id [.ok zone now] }) := by
  simp [scanqrcode, hact, hz, htail]

/-- Witness for C10: a token whose single stored entry is the unparseable
blob "oops" gets `recorded` on a rescan of any valid zone, and the stored
history is replaced by the one fresh event. -/
theorem scanqrcode_bad_tail_witness :
    scanqrcode ⟨[("t", 100)], [("t", [.bad "oops"])]⟩ "t" "security" 5 =
      (.recorded 5, ⟨[("t", 100)], [("t", [.ok "security" 5])]⟩) := by
  exact scanqrcode_bad_tail ⟨[("t", 100)], [("t", [.bad "oops"])]⟩ "t"
    "security" 5 "oops" (by decide) (by decide) (by decide)

/-- C1 is violated by the code: scanning a fresh zone does not append to the
existing history — `r.delete(scans_key)` wipes it first, so the resulting
history is the single new event, not the old history plus the new event.
Concrete run: token "t" with history [security@0] scans boarding_gate at 10. -/
theorem scanqrcode_truncates_history :
    scanqrcode ⟨[("t", 3600)], [("t", [.ok "security" 0])]⟩ "t"
        "boarding_gate" 10 =
      (.recorded 10, ⟨[("t", 3600)], [("t", [.ok "boarding_gate" 10])]⟩) ∧
    ([RawScan.ok "security" 0] ++ [RawScan.ok "boarding_gate" 10]) ≠
      [RawScan.ok "boarding_gate" 10] := by
  constructor
  · decide
  · decide

/-- C2 is violated by the code on a token with a pre-existing history:
scanning boarding_gate twice after a prior security scan yields `recorded`
then `alreadyInZone 10` as claimed, but the history length stays 1 instead
of growing from 1 to 2, because the first scan deleted the prior history. -/
theorem scanqrcode_double_scan_length :
    (scanqrcode ⟨[("t", 3600)], [("t", [.ok "security" 0])]⟩ "t"
        "boarding_gate" 10).1 = .recorded 10 ∧
    (scanqrcode
        (scanqrcode ⟨[("t", 3600)], [("t", [.ok "security" 0])]⟩ "t"
          "boarding_gate" 10).2 "t" "boarding_gate" 20).1 =
      .alreadyInZone 10 ∧
    ((alookup (scanqrcode
        (scanqrcode ⟨[("t", 3600)], [("t", [.ok "security" 0])]⟩ "t"
          "boarding_gate" 10).2 "t" "boarding_gate" 20).2.scanLists
        "t").getD []).length = 1 ∧
    ((alookup (⟨[("t", 3600)], [("t", [.ok "security" 0])]⟩ : Store).scanLists
        "t").getD []).length = 1 := by
  refine ⟨by decide, by decide, by decide, by decide⟩

/-- C9 is violated by the code: `rpush` never sets a TTL on the
`surge:{id}:scans` key, so after the token key (set with `ex=3600`) has
expired, the scan history is still held by the store. Concrete run: issue
"t" at 0, scan security at 10, observe at 4000. -/
theorem scan_history_outlives_token :
    tokenActive
        (scanqrcode (issue_surge_id ⟨[], []⟩ "t" 0) "t" "security" 10).2
        "t" 4000 = false ∧
    alookup
        (scanqrcode (issue_surge_id ⟨[], []⟩ "t" 0) "t" "security" 10).2.scanLists
        "t" = some [.ok "security" 10] := by
  have h1 : issue_surge_id ⟨[], []⟩ "t" 0 = ⟨[("t", 3600)], []⟩ := by
    simp only [issue_surge_id, aset]
    norm_num
  rw [h1]
  refine ⟨by decide, by decide⟩

/-- Parsed scan event, the dict `{zone, timestamp}` after
`json.loads` and `datetime.fromisoformat` in get_scans_for_surge_id. -/
structure Scan where
  zone : String
  ts : Rat
deriving DecidableEq, Repr

/-- Parsing of one raw list entry in get_scans_for_surge_id: entries that
raise JSONDecodeError / KeyError / ValueError are skipped (`continue`). -/
def parseScan : RawScan → Option Scan
  | .ok z t => some ⟨z, t⟩
  | .bad _ => none

/-- Stable insertion into a timestamp-sorted list (helper for the stable
`scans.sort(key=lambda x: x["timestamp"])`). -/
def insertByTs (a : Scan) : List Scan → List Scan
  | [] => [a]
  | b :: r => if a.ts ≤ b.ts then a :: b :: r else b :: insertByTs a r

/-- Stable sort by timestamp, modelling `scans.sort(key=...)`. -/
def sortByTs : List Scan → List Scan
  | [] => []
  | a :: r => insertByTs a (sortByTs r)

/-- get_scans_for_surge_id from congestion.py: read the raw list, keep the
entries that parse, sort by timestamp. -/
def get_scans_for_surge_id (s : Store) (id : String) : List Scan :=
  sortByTs (((alookup s.scanLists id).getD []).filterMap parseScan)

/-- get_all_surge_ids from congestion.py: enumerate the `surge:*` keys
present in the store at query time and keep the base token keys. The
string-level filter that drops `surge:{id}:scans` keys is represented
structurally: scan-list keys live in `Store.scanLists` and are never
token keys. -/
def get_all_surge_ids (s : Store) (now : Rat) : List String :=
  (s.tokens.filter (fun p => decide (now ≤ p.2))).map Prod.fst

/-- compute_dwell_times from congestion.py, as the flat list of
(zone, dwell) attributions the loop produces in index order: for each
adjacent pair the duration `next_time - current_time` is attributed to the
current scan's zone exactly when `0 < dwell < 7200`. -/
def compute_dwell_times : List Scan → List (String × Rat)
  | [] => []
  | [_] => []
  | a :: b :: rest =>
    (if 0 < b.ts - a.ts ∧ b.ts - a.ts < 7200 then [(a.zone, b.ts - a.ts)] else [])
      ++ compute_dwell_times (b :: rest)

/-- Concatenation of per-token lists, in token order (helper for the
aggregation loops over all surge ids). -/
def concatMap {α : Type} : List String → (String → List α) → List α
  | [], _ => []
  | x :: r, g => g x ++ concatMap r g

/-- Dwell durations attributed to zone `z` across all active tokens: the
list `zone_dwells[z]` built by get_zone_congestion's dwell loop and
aggregate_dwell_by_zone (the `if scans:` guard in the loop only skips
tokens that contribute nothing). -/
def all_dwell_times (s : Store) (now : Rat) (z : String) : List Rat :=
  concatMap (get_all_surge_ids s now)
    (fun id => (compute_dwell_times (get_scans_for_surge_id s id)).filterMap
      (fun p => if p.1 = z then some p.2 else none))

/-- aggregate_dwell_by_zone from congestion.py read through
`.get(zone, 0.0)`: the arithmetic mean of the attributed dwells of `z`,
`0.0` when there are none (a zone is a key of `avg_dwells` exactly when its
dwell list is non-empty). -/
def aggregate_dwell_by_zone (s : Store) (now : Rat) (z : String) : Rat :=
  let times := all_dwell_times s now z
  if times.length = 0 then 0 else times.sum / (times.length : Rat)

/-- compute_scan_rate from congestion.py read through `.get(zone, 0)`: the
count over all active tokens' parssed histories of events in zone `z` with
`timestamp >= now - window` (default window 5 minutes). -/
def compute_scan_rate (s : Store) (now : Rat) (z : String) : Nat :=
  ((get_all_surge_ids s now).map
    (fun id => ((get_scans_for_surge_id s id).filter
      (fun e => decide (now - SCAN_RATE_WINDOW_MINUTES * 60 ≤ e.ts)
        && decide (e.zone = z))).length)).sum

/-- Python `round`, which rounds halves to even. -/
def pyRoundHalfEven (x : Rat) : Int :=
  if x - x.floor < 1 / 2 then x.floor
  else if 1 / 2 < x - x.floor then x.floor + 1
  else if x.floor % 2 = 0 then x.floor else x.floor + 1

/-- `round(x, 2)` from get_zone_congestion. -/
def round2 (x : Rat) : Rat := (pyRoundHalfEven (x * 100) : Rat) / 100

/-- Per-zone entry of the get_zone_congestion response. -/
structure ZoneData where
  congestion_level : CongestionLevel
  congestion_score : Rat
  avg_dwell_time_seconds : Rat
  scan_count_last_5min : Nat
deriving DecidableEq, Repr

/-- get_zone_congestion from congestion.py, as the `zones` dict of its
response read as a function: a zone is a key exactly when it is in
`all_zones` (a zone with attributed dwells, a zone with a positive window
count, or a configured zone), and its entry carries the classified level,
the rounded score, the rounded average dwell and the window count. -/
def get_zone_congestion (s : Store) (now : Rat) (z : String) : Option ZoneData :=
  if all_dwell_times s now z ≠ [] ∨ compute_scan_rate s now z ≠ 0 ∨ z ∈ VALID_ZONES
  then
    let avg_dwell := aggregate_dwell_by_zone s now z
    let scan_count := compute_scan_rate s now z
    let score := calculate_congestion_score scan_count avg_dwell
    some { congestion_level := classify_congestion score,
           congestion_score := round2 score,
           avg_dwell_time_seconds := round2 avg_dwell,
           scan_count_last_5min := scan_count }
  else none

/-- C3: the congestion snapshot always carries one entry per configured
zone, whatever the store holds — a configured zone without activity gets
level LOW, score 0, average dwell 0 and scan count 0 — so the key set is a
superset of VALID_ZONES. -/
theorem get_zone_congestion_full_coverage (s : Store) (now : Rat) (z : String) :
    (z ∈ VALID_ZONES → ∃ d, get_zone_congestion s now z = some d) ∧
    (z ∈ VALID_ZONES → all_dwell_times s now z = [] →
      compute_scan_rate s now z = 0 →
      get_zone_congestion s now z = some ⟨.LOW, 0, 0, 0⟩) := by
  constructor
  · intro hz
    exact ⟨_, if_pos (Or.inr (Or.inr hz))⟩
  · intro hz hd hc
    rw [get_zone_congestion, if_pos (Or.inr (Or.inr hz))]
    simp only [aggregate_dwell_by_zone, hd, hc]
    norm_num [calculate_congestion_score, classify_congestion, low_max,
      round2, pyRoundHalfEven, show Rat.floor 0 = 0 from rfl]

/-- Witness for C3: the empty store yields the zero entry for the
configured zone "security". -/
theorem get_zone_congestion_full_coverage_witness :
    (∃ d, get_zone_congestion ⟨[], []⟩ 0 "security" = some d) ∧
    get_zone_congestion ⟨[], []⟩ 0 "security" =
      some ⟨.LOW, 0, 0, 0⟩ := by
  exact ⟨(get_zone_congestion_full_coverage ⟨[], []⟩ 0 "security").1 (by decide),
    (get_zone_congestion_full_coverage ⟨[], []⟩ 0 "security").2 (by decide)
      rfl rfl⟩

/-- C4: compute_dwell_times attributes exactly the adjacent-pair durations
in the open interval (0, 7200) to the departed zone: `(z, q)` is an
attribution iff some adjacent pair `(scans[i], scans[i+1])` has
`scans[i].zone = z`, `q = scans[i+1].ts - scans[i].ts` and `0 < q < 7200`.
In particular no attributed duration is ≤ 0 or ≥ 7200, out-of-range
durations are dropped rather than clamped, and none of them can reach
`aggregate_dwell_by_zone`. -/
theorem compute_dwell_times_spec (scans : List Scan) (z : String) (q : Rat) :
    (z, q) ∈ compute_dwell_times scans ↔
      ∃ i a b, scans.get? i = some a ∧ scans.get? (i + 1) = some b ∧
        a.zone = z ∧ q = b.ts - a.ts ∧ 0 < q ∧ q < 7200 := by
  induction scans with
  | nil =>
    constructor
    · intro h
      simp [compute_dwell_times] at h
    · rintro ⟨i, a, b, h1, -⟩
      rw [List.get?_nil] at h1
      exact Option.noConfusion h1
  | cons a tail ih =>
    cases tail with
    | nil =>
      constructor
      · intro h
        simp [compute_dwell_times] at h
      · rintro ⟨i, a', b', -, h2, -⟩
        rw [List.get?_cons_succ, List.get?_nil] at h2
        exact Option.noConfusion h2
    | cons b rest =>
      constructor
      · intro h
        rcases List.mem_append.mp h with h1 | h2
        · by_cases hc : 0 < b.ts - a.ts ∧ b.ts - a.ts < 7200
          · rw [if_pos hc] at h1
            simp only [List.mem_singleton, Prod.mk.injEq] at h1
            exact ⟨0, a, b, rfl, rfl, h1.1.symm, h1.2,
              by rw [h1.2]; exact hc.1, by rw [h1.2]; exact hc.2⟩
          · rw [if_neg hc] at h1
            exact absurd h1 (List.not_mem_nil _)
        · obtain ⟨i, a', b', g1, g2, g3, g4, g5, g6⟩ := ih.mp h2
          exact ⟨i + 1, a', b', by rw [List.get?_cons_succ]; exact g1,
            by rw [List.get?_cons_succ]; exact g2, g3, g4, g5, g6⟩
      · rintro ⟨i, a', b', h1, h2, h3, h4, h5, h6⟩
        cases i with
        | zero =>
          rw [List.get?_cons_zero, Option.some.injEq] at h1
          rw [List.get?_cons_succ, List.get?_cons_zero, Option.some.injEq] at h2
          subst h1; subst h2
          refine List.mem_append.mpr (Or.inl ?_)
          have hc : 0 < b.ts - a.ts ∧ b.ts - a.ts < 7200 := by
            constructor
            · rw [← h4]; exact h5
            · rw [← h4]; exact h6
          rw [if_pos hc]
          simp [h3.symm, h4]
        | succ n =>
          rw [List.get?_cons_succ] at h1
          rw [List.get?_cons_succ] at h2
          exact List.mem_append.mpr
            (Or.inr (ih.mpr ⟨n, a', b', h1, h2, h3, h4, h5, h6⟩))

/-- Witness for C4: in the history security@0, boarding_gate@300 the
300-second stay is attributed to security, via the right-to-left direction
of the characterization at the pair index 0. -/
theorem compute_dwell_times_spec_witness :
    ("security", (300 : Rat)) ∈
      compute_dwell_times [⟨"security", 0⟩, ⟨"boarding_gate", 300⟩] :=
  (compute_dwell_times_spec [⟨"security", 0⟩, ⟨"boarding_gate", 300⟩]
      "security" 300).mpr
    ⟨0, ⟨"security", 0⟩, ⟨"boarding_gate", 300⟩, rfl, rfl, rfl,
      by norm_num, by norm_num, by norm_num⟩

/-- Renaming of token identifiers throughout the store: every `surge:{id}`
and `surge:{id}:scans` key becomes `surge:{f id}` / `surge:{f id}:scans`,
with expiry times and histories untouched. -/
def renameStore (f : String → String) (s : Store) : Store :=
  ⟨s.tokens.map (fun p => (f p.1, p.2)), s.scanLists.map (fun p => (f p.1, p.2))⟩

/-- Key lookup commutes with an injective renaming of keys. -/
theorem alookup_rename {α : Type} {f : String → String}
    (hf : Function.Injective f) (l : List (String × α)) (id : String) :
    alookup (l.map (fun p => (f p.1, p.2))) (f id) = alookup l id := by
  induction l with
  | nil => rfl
  | cons p r ih => simp [alookup, hf.eq_iff, ih]

/-- Filtering on expiry and projecting the key commutes with a renaming of
keys (list form). -/
theorem filter_fst_rename (f : String → String) (now : Rat)
    (l : List (String × Rat)) :
    ((l.map (fun p => (f p.1, p.2))).filter
        (fun p => decide (now ≤ p.2))).map Prod.fst =
      ((l.filter (fun p => decide (now ≤ p.2))).map Prod.fst).map f := by
  induction l with
  | nil => rfl
  | cons p r ih =>
    by_cases h : now ≤ p.2 <;> simp [List.filter_cons, h, ih]

/-- Renaming renames the enumerated active ids and nothing else. -/
theorem get_all_surge_ids_rename (f : String → String) (s : Store) (now : Rat) :
    get_all_surge_ids (renameStore f s) now =
      (get_all_surge_ids s now).map f :=
  filter_fst_rename f now s.tokens

/-- Retrieved history of a renamed token under an injective renaming. -/
theorem get_scans_rename {f : String → String} (hf : Function.Injective f)
    (s : Store) (id : String) :
    get_scans_for_surge_id (renameStore f s) (f id) =
      get_scans_for_surge_id s id := by
  unfold get_scans_for_surge_id renameStore
  rw [alookup_rename hf]

/-- concatMap over a renamed id list, with pointwise equal bodies. -/
theorem concatMap_map_congr {α : Type} (f : String → String)
    (g₁ : String → List α) (g₂ : String → List α) (l : List String)
    (h : ∀ x, g₁ (f x) = g₂ x) :
    concatMap (l.map f) g₁ = concatMap l g₂ := by
  induction l with
  | nil => rfl
  | cons x r ih => simp [concatMap, h, ih]

/-- map over a renamed id list, with pointwise equal bodies. -/
theorem map_map_congr {α : Type} (f : String → String)
    (g₁ : String → α) (g₂ : String → α) (l : List String)
    (h : ∀ x, g₁ (f x) = g₂ x) :
    (l.map f).map g₁ = l.map g₂ := by
  induction l with
  | nil => rfl
  | cons x r ih => simp [h, ih]

/-- The attributed dwell lists are invariant under injective renaming. -/
theorem all_dwell_times_rename {f : String → String}
    (hf : Function.Injective f) (s : Store) (now : Rat) (z : String) :
    all_dwell_times (renameStore f s) now z = all_dwell_times s now z := by
  unfold all_dwell_times
  rw [get_all_surge_ids_rename]
  exact concatMap_map_congr f _ _ _ (fun id => by rw [get_scans_rename hf])

/-- The window scan counts are invariant under injective renaming. -/
theorem compute_scan_rate_rename {f : String → String}
    (hf : Function.Injective f) (s : Store) (now : Rat) (z : String) :
    compute_scan_rate (renameStore f s) now z = compute_scan_rate s now z := by
  unfold compute_scan_rate
  rw [get_all_surge_ids_rename]
  rw [map_map_congr f _ _ _ (fun id => by rw [get_scans_rename hf])]

/-- C8: the congestion output is anonymous — it is keyed by zone and holds
no token identifier, and a bijective renaming of every token identifier in
the store (same expiry times, same histories) leaves every per-zone entry
of get_zone_congestion unchanged. -/
theorem get_zone_congestion_rename (f : String → String) (s : Store)
    (now : Rat) (z : String) (hf : Function.Injective f) :
    get_zone_congestion (renameStore f s) now z =
      get_zone_congestion s now z := by
  unfold get_zone_congestion aggregate_dwell_by_zone
  rw [all_dwell_times_rename hf, compute_scan_rate_rename hf]

/-- Prepending a fixed string to a token identifier is injective. -/
theorem prepend_injective (p : String) :
    Function.Injective (fun x => p ++ x) := by
  intro a b h
  have h2 : (p ++ a).data = (p ++ b).data := congrArg String.data h
  rw [String.data_append, String.data_append] at h2
  cases a
  cases b
  exact congrArg String.mk (List.append_cancel_left h2)

/-- Witness for C8: renaming the single token of a store by the injective
prefixing map leaves the "security" entry unchanged. -/
theorem get_zone_congestion_rename_witness :
    get_zone_congestion
        (renameStore (fun x => "renamed-" ++ x)
          ⟨[("t", 100)], [("t", [.ok "security" 0, .ok "boarding_gate" 40])]⟩)
        50 "security" =
      get_zone_congestion
        ⟨[("t", 100)], [("t", [.ok "security" 0, .ok "boarding_gate" 40])]⟩
        50 "security" :=
  get_zone_congestion_rename (fun x => "renamed-" ++ x)
    ⟨[("t", 100)], [("t", [.ok "security" 0, .ok "boarding_gate" 40])]⟩
    50 "security" (prepend_injective "renamed-")
